import Mathlib

/-!
Verification development for the LWIS device-mediation runtime.

The definitions below are shallow embeddings of the C sources of the
repository: the fence state machine (lwis_fence.c), the trigger-condition
readiness functions (lwis_fence.c), the synchronous io-entry executor and the
io-entry copy guards (lwis_ioctl.c, lwis_cmd.c), the command handlers for
device lifecycle and event dequeue (lwis_cmd.c), and the I2C bus-manager
process queue (lwis_i2c_sched.c, lwis_i2c_bus_manager.c).  Machine integers
are modelled as Int or Nat with explicit truncation where the C code
truncates; kernel allocation failures and user-copy faults are abstracted as
always succeeding unless the surrounding code checks them; effects that the
claims observe (waking waiters, reading the user buffer, allocations,
barrier invocations) are recorded explicitly in the result structures.
-/

namespace LWIS

/-! Linux errno values used by the sources (the C code returns their negations). -/

def EINVAL : Int := 22
def EBADF : Int := 9
def ENOMEM : Int := 12
def EFAULT : Int := 14
def ENOENT : Int := 2
def EAGAIN : Int := 11
def EOVERFLOW : Int := 75
def EALREADY : Int := 114

/-- Sentinel status of a fence that has not been signaled yet.  The macro is
defined in lwis_commands.h, which is not part of the sources here; its value
(-1) is taken from the interface contract that the status is an i32 whose
initial value is distinct from the 0 = ok convention used by
lwis_fence_triggered_condition_ready.  All theorems below only rely on it
being a fixed i32 value that user space can also pass to the signal path. -/
def LWIS_FENCE_STATUS_NOT_SIGNALED : Int := -1

/-- Byte size of the `int status` field of struct lwis_fence. -/
def sizeof_status : Nat := 4

/-- A fence (struct lwis_fence, lwis_fence.h in unnamed/part_000):
`status` and the hash table `transaction_list` of per-client buckets of
pending transaction ids.  The hash table is modelled as an association list
from client identifier to the bucket's list of pending ids. -/
structure Fence where
  status : Int
  transaction_list : List (Nat × List Int)
  deriving Repr, DecidableEq

/-- Result of `lwis_fence_signal` (lwis_fence.c:116-168).  `ret` is the C
return value; `fence` the fence state afterwards; `read_user` records
whether copy_from_user on the user buffer was reached; `woke_waiters`
whether wake_up_interruptible on the status wait queue was called;
`triggered` the per-client buckets handed to lwis_transaction_fence_trigger
(and removed from the fence) on a successful signal. -/
structure SignalOutcome where
  ret : Int
  fence : Fence
  read_user : Bool
  woke_waiters : Bool
  triggered : List (Nat × List Int)
  deriving Repr, DecidableEq

/-- Embedding of `lwis_fence_signal` (lwis_fence.c:116-168).  `len` is the
write length, `val` the i32 the user buffer holds.  The length check
precedes the copy_from_user; an already-signaled fence yields -EINVAL with
no state change; otherwise the status is set, waiters are woken, and every
bucket is handed to the transaction trigger and dropped from the table. -/
def lwis_fence_signal (f : Fence) (len : Nat) (val : Int) : SignalOutcome :=
  if len ≠ sizeof_status then
    { ret := -EINVAL, fence := f, read_user := false, woke_waiters := false, triggered := [] }
  else if f.status ≠ LWIS_FENCE_STATUS_NOT_SIGNALED then
    { ret := -EINVAL, fence := f, read_user := true, woke_waiters := false, triggered := [] }
  else
    { ret := (len : Int), fence := { status := val, transaction_list := [] },
      read_user := true, woke_waiters := true, triggered := f.transaction_list }

/-- Result of `lwis_fence_release` (lwis_fence.c:41-78).
`logged_unsignaled` records the dev_err for a release without a signal;
`woke_waiters` whether any waiter wake-up was performed (the release path
contains none); `freed_buckets` the buckets freed while emptying the
transaction hash table; `fence_freed` the final kfree of the fence. -/
structure ReleaseOutcome where
  logged_unsignaled : Bool
  woke_waiters : Bool
  freed_buckets : List (Nat × List Int)
  fence_freed : Bool
  deriving Repr, DecidableEq

/-- Embedding of `lwis_fence_release` (lwis_fence.c:41-78): log if the fence
is still unsignaled, free every pending-transaction bucket, free the fence.
No signal and no wake-up of waiters appears anywhere on this path. -/
def lwis_fence_release (f : Fence) : ReleaseOutcome :=
  { logged_unsignaled := f.status = LWIS_FENCE_STATUS_NOT_SIGNALED,
    woke_waiters := false,
    freed_buckets := f.transaction_list,
    fence_freed := true }

/-- Bucket update of `lwis_trigger_fence_add_transaction`
(lwis_fence.c:297-306): `transaction_list_find_or_create` locates the
calling client's bucket (creating it when absent) and `list_add` prepends
the new pending transaction id to that bucket. -/
def add_to_bucket (l : List (Nat × List Int)) (owner : Nat) (tid : Int) :
    List (Nat × List Int) :=
  if l.any (fun b => b.1 = owner) then
    l.map (fun b => if b.1 = owner then (b.1, tid :: b.2) else b)
  else
    (owner, [tid]) :: l

/-- Embedding of `lwis_trigger_fence_add_transaction` (lwis_fence.c:268-317).
`fence_opt` is the result of resolving the fd (`none` models fget failure or
stale private data, both of which return -EBADF).  With the fence still
unsignaled the pending id is recorded in the caller's bucket and 0 is
returned; with the fence signaled — with any status, 0 included — the
single else branch returns -EINVAL. -/
def lwis_trigger_fence_add_transaction (fence_opt : Option Fence) (client : Nat)
    (tid : Int) : Int × Option Fence :=
  match fence_opt with
  | none => (-EBADF, none)
  | some f =>
    if f.status = LWIS_FENCE_STATUS_NOT_SIGNALED then
      (0, some { f with transaction_list := add_to_bucket f.transaction_list client tid })
    else
      (-EINVAL, some f)

/-! Trigger conditions (lwis_fence.c:320-393). -/

/-- Trigger node kinds (LWIS_TRIGGER_EVENT, LWIS_TRIGGER_FENCE,
LWIS_TRIGGER_FENCE_PLACEHOLDER from lwis_commands.h). -/
inductive TriggerNodeType
  | EVENT
  | FENCE
  | FENCE_PLACEHOLDER
  deriving Repr, DecidableEq

/-- Trigger operators (LWIS_TRIGGER_NODE_OPERATOR_{NONE,AND,OR}). -/
inductive TriggerOp
  | NONE
  | AND
  | OR
  deriving Repr, DecidableEq

/-- One trigger node: the C union of an event predicate {id, counter} and a
fence fd, flattened. -/
structure TriggerNode where
  type : TriggerNodeType
  event_id : Int
  event_counter : Int
  fence_fd : Int
  deriving Repr, DecidableEq

/-- Trigger condition of a transaction: operator plus node list
(num_nodes = trigger_nodes.length). -/
structure TriggerCondition where
  operator_type : TriggerOp
  trigger_nodes : List TriggerNode
  deriving Repr, DecidableEq

/-- The slice of struct lwis_transaction the readiness functions touch. -/
structure Transaction where
  trigger_condition : TriggerCondition
  signaled_count : Nat
  deriving Repr, DecidableEq

/-- The loop of `lwis_event_triggered_condition_ready` (lwis_fence.c:337-346)
scans for a node with type LWIS_TRIGGER_EVENT whose event id and counter both
match, and breaks at the first hit. -/
def has_matching_event_node (nodes : List TriggerNode) (eid ec : Int) : Bool :=
  nodes.any fun n => n.type = .EVENT ∧ n.event_id = eid ∧ n.event_counter = ec

/-- Embedding of `lwis_event_triggered_condition_ready` (lwis_fence.c:325-363).
If some node matches the fired event, signaled_count is incremented (and the
weak record freed); the condition is then ready under AND exactly when the
count reaches num_nodes, and unconditionally under OR and NONE.  With no
matching node the function returns false and changes nothing. -/
def lwis_event_triggered_condition_ready (t : Transaction) (eid ec : Int) :
    Bool × Transaction :=
  let all_signaled := t.trigger_condition.trigger_nodes.length
  if has_matching_event_node t.trigger_condition.trigger_nodes eid ec then
    let t1 : Transaction := { t with signaled_count := t.signaled_count + 1 }
    match t.trigger_condition.operator_type with
    | .AND => (decide (t1.signaled_count = all_signaled), t1)
    | .OR => (true, t1)
    | .NONE => (true, t1)
  else
    (false, t)

/-- Embedding of `lwis_fence_triggered_condition_ready` (lwis_fence.c:365-393).
signaled_count is always incremented; the chain of conditions mirrors the C:
(AND or OR) with the count reaching num_nodes, then AND with a non-zero fence
status (ready to cancel no matter how many nodes fired), then OR with status
0, then NONE. -/
def lwis_fence_triggered_condition_ready (t : Transaction) (fence_status : Int) :
    Bool × Transaction :=
  let op := t.trigger_condition.operator_type
  let all_signaled := t.trigger_condition.trigger_nodes.length
  let t1 : Transaction := { t with signaled_count := t.signaled_count + 1 }
  let ready : Bool :=
    if (op = .AND ∨ op = .OR) ∧ t1.signaled_count = all_signaled then true
    else if op = .AND ∧ fence_status ≠ 0 then true
    else if op = .OR ∧ fence_status = 0 then true
    else if op = .NONE then true
    else false
  (ready, t1)

/-- Outcome of a fence firing for one pending transaction. -/
inductive FenceTriggerOutcome
  | pending
  | queued_for_execution
  | cancelled
  deriving Repr, DecidableEq

/-- Modelled from the spec: `lwis_transaction_fence_trigger`
(lwis_transaction.c, which is not among the sources; lwis_fence.c:159 calls
it for each bucket).  Per the spec, when the condition is ready the
transaction is queued for execution if the fence signaled with status 0 and
is cancelled without executing its io-entries if the status is non-zero
("ready-to-cancel"); when not ready the transaction stays pending. -/
def lwis_transaction_fence_trigger (t : Transaction) (fence_status : Int) :
    FenceTriggerOutcome × Transaction :=
  let r := lwis_fence_triggered_condition_ready t fence_status
  if r.1 then
    if fence_status = 0 then (.queued_for_execution, r.2) else (.cancelled, r.2)
  else
    (.pending, r.2)

/-! Synchronous io-entry executor (lwis_ioctl.c:185-235). -/

/-- Io-entry tags (LWIS_IO_ENTRY_* from lwis_commands.h); UNKNOWN stands for
any value outside the switch, which the executor rejects with -EINVAL. -/
inductive IoEntryType
  | READ
  | WRITE
  | READ_BATCH
  | WRITE_BATCH
  | MODIFY
  | POLL
  | READ_ASSERT
  | UNKNOWN
  deriving Repr, DecidableEq

/-- One io-entry.  Only the tag steers the executor's dispatch; the operand
fields are carried opaquely and interpreted by the device capability. -/
structure IoEntry where
  type : IoEntryType
  offset : Nat
  val : Int
  deriving Repr, DecidableEq

/-- The device operations the executor invokes, over an abstract device
state σ.  `register_rw` is the vops.register_io capability shared by the
MODIFY / READ / READ_BATCH / WRITE / WRITE_BATCH arms (register_modify,
register_read and register_write in lwis_ioctl.c each call it);
`entry_poll` and `entry_read_assert` stand for lwis_io_entry_poll and
lwis_io_entry_read_assert (lwis_io_entry.c, an external collaborator).
Each returns the new device state or a non-zero error.  `has_barrier`
records whether vops.register_io_barrier is non-NULL. -/
structure DeviceOps (σ : Type) where
  register_rw : σ → IoEntry → Except Int σ
  entry_poll : σ → IoEntry → Except Int σ
  entry_read_assert : σ → IoEntry → Except Int σ
  has_barrier : Bool

/-- The switch on io_entries[i].type (lwis_ioctl.c:199-220). -/
def dispatch_entry {σ : Type} (dev : DeviceOps σ) (s : σ) (e : IoEntry) :
    Except Int σ :=
  match e.type with
  | .MODIFY => dev.register_rw s e
  | .READ => dev.register_rw s e
  | .READ_BATCH => dev.register_rw s e
  | .WRITE => dev.register_rw s e
  | .WRITE_BATCH => dev.register_rw s e
  | .POLL => dev.entry_poll s e
  | .READ_ASSERT => dev.entry_read_assert s e
  | .UNKNOWN => .error (-EINVAL)

/-- The entry loop: walk in order, stop at the first entry whose dispatch
fails and keep the state the earlier entries produced (goto exit). -/
def run_entries {σ : Type} (dev : DeviceOps σ) (s : σ) :
    List IoEntry → Int × σ
  | [] => (0, s)
  | e :: rest =>
    match dispatch_entry dev s e with
    | .error r => (r, s)
    | .ok s1 => run_entries dev s1 rest

/-- Stepwise success of a whole list of entries: `some s1` when every entry
dispatches successfully, threading the device state. -/
def runs_ok {σ : Type} (dev : DeviceOps σ) : σ → List IoEntry → Option σ
  | s, [] => some s
  | s, e :: rest =>
    match dispatch_entry dev s e with
    | .error _ => none
    | .ok s1 => runs_ok dev s1 rest

/-- Embedding of `lwis_ioctl_util_synchronous_process_io_entries`
(lwis_ioctl.c:185-235).  The result carries the return value, the final
device state, and the ordered barrier invocations as
(use_read_barrier, use_write_barrier) pairs: (false, true) before the first
entry and (true, false) at the exit label — reached on success and on the
error goto alike — whenever the barrier hook exists. -/
def lwis_ioctl_util_synchronous_process_io_entries {σ : Type}
    (dev : DeviceOps σ) (s : σ) (entries : List IoEntry) :
    Int × σ × List (Bool × Bool) :=
  let pre : List (Bool × Bool) := if dev.has_barrier then [(false, true)] else []
  let r := run_entries dev s entries
  let post : List (Bool × Bool) := if dev.has_barrier then [(true, false)] else []
  (r.1, r.2, pre ++ post)

/-! Io-entry copy guards (lwis_cmd.c:261-298 and lwis_ioctl.c:237-259). -/

/-- Result of the size-computation prefix of an io-entry copy path: the
error or the byte size that was allocated, plus the list of allocation sizes
requested from the allocator (empty when the guard fails first). -/
structure CopyGuardOutcome where
  ret : Int
  alloc_sizes : List Nat
  deriving Repr, DecidableEq

/-- Embedding of the size computation, overflow guard and allocation of
`copy_io_entries_from_cmd` (lwis_cmd.c:280-289).  `entry_sz` is
sizeof(struct lwis_io_entry) and `num` the user-supplied
num_io_entries.  buf_size is a uint32_t, so the product truncates to 32
bits; the guard divides it back and compares with num, returning -EOVERFLOW
before lwis_allocator_allocate is reached. -/
def copy_io_entries_from_cmd_guard (entry_sz num : Nat) : CopyGuardOutcome :=
  let buf_size := (entry_sz * num) % 2 ^ 32
  if buf_size / entry_sz ≠ num then
    { ret := -EOVERFLOW, alloc_sizes := [] }
  else
    { ret := 0, alloc_sizes := [buf_size] }

/-- Embedding of the size computation, overflow guard and allocation of
`lwis_ioctl_util_construct_io_entry` (lwis_ioctl.c:250-259).  entry_size is
a size_t, so the product truncates to 64 bits. -/
def lwis_ioctl_util_construct_io_entry_guard (entry_sz num : Nat) :
    CopyGuardOutcome :=
  let entry_size := (entry_sz * num) % 2 ^ 64
  if entry_size / entry_sz ≠ num then
    { ret := -EOVERFLOW, alloc_sizes := [] }
  else
    { ret := 0, alloc_sizes := [entry_size] }

/-! Event dequeue (lwis_cmd.c:729-814). -/

/-- The fields of struct lwis_event_info the dequeue path copies out. -/
structure EventInfo where
  event_id : Int
  event_counter : Int
  timestamp_ns : Int
  payload_size : Nat
  deriving Repr, DecidableEq

/-- The two per-client queues the dequeue path reads: the error event queue
(strictly higher priority) and the normal event queue, front first. -/
structure ClientQueues where
  error_queue : List EventInfo
  event_queue : List EventInfo
  deriving Repr, DecidableEq

/-- Result of `cmd_event_dequeue`: the ret_code written into the header
(`0`, -EAGAIN or -ENOENT), the event copied out when one was popped, the
required payload size reported in the too-small case, and the queues
afterwards. -/
structure DequeueOutcome where
  ret_code : Int
  delivered : Option EventInfo
  reported_size : Option Nat
  st : ClientQueues
  deriving Repr, DecidableEq

/-- The shared tail of `cmd_event_dequeue` (lwis_cmd.c:768-809) once a front
event was peeked: with a payload larger than the user's buffer, report the
required size with -EAGAIN and do not pop; otherwise copy the event out and
pop it from the queue it was peeked from. -/
def handle_front (st : ClientQueues) (cap : Nat) (e : EventInfo)
    (is_error_event : Bool) : DequeueOutcome :=
  if cap < e.payload_size then
    { ret_code := -EAGAIN, delivered := none, reported_size := some e.payload_size, st := st }
  else
    { ret_code := 0, delivered := some e, reported_size := none,
      st :=
        if is_error_event then
          { error_queue := st.error_queue.tail, event_queue := st.event_queue }
        else
          { error_queue := st.error_queue, event_queue := st.event_queue.tail } }

/-- Embedding of `cmd_event_dequeue` (lwis_cmd.c:729-814).  `cap` is the
user's payload_buffer_size.  The error queue front is peeked first; only
with the error queue empty is the normal queue consulted; with both empty
the header carries -ENOENT. -/
def cmd_event_dequeue (st : ClientQueues) (cap : Nat) : DequeueOutcome :=
  match st.error_queue with
  | e :: _ => handle_front st cap e true
  | [] =>
    match st.event_queue with
    | e :: _ => handle_front st cap e false
    | [] => { ret_code := -ENOENT, delivered := none, reported_size := none, st := st }

/-- Popping the front event (error queue first) — the state `cmd_event_dequeue`
leaves behind after a successful delivery. -/
def pop_front (st : ClientQueues) : ClientQueues :=
  match st.error_queue with
  | _ :: tl => { error_queue := tl, event_queue := st.event_queue }
  | [] => { error_queue := [], event_queue := st.event_queue.tail }

/-- The event `cmd_event_dequeue` peeks at: the error-queue front when the
error queue is non-empty, the normal-queue front otherwise. -/
def front_event (st : ClientQueues) : Option EventInfo :=
  match st.error_queue with
  | e :: _ => some e
  | [] => st.event_queue.head?

/-! Device lifecycle commands (lwis_cmd.c:157-259 and 355-452). -/

/-- INT_MAX, the enable-counter overflow bound checked by cmd_device_enable. -/
def INT_MAX : Int := 2 ^ 31 - 1

/-- The slice of device/client state the lifecycle commands read and write:
lwis_dev->enabled, lwis_dev->is_suspended, lwis_client->is_enabled, and
whether the device tree supplied suspend/resume power sequences. -/
structure LifecycleState where
  dev_enabled : Int
  is_suspended : Bool
  client_is_enabled : Bool
  has_suspend_sequence : Bool
  has_resume_sequence : Bool
  deriving Repr, DecidableEq

/-- Return values of the external power helpers the lifecycle commands call:
lwis_dev_power_up_locked, lwis_dev_power_down_locked and
lwis_dev_process_power_sequence (all outside these sources). -/
structure PowerOracle where
  power_up_ret : Int
  power_down_ret : Int
  suspend_seq_ret : Int
  resume_seq_ret : Int
  deriving Repr, DecidableEq

/-- Embedding of `cmd_device_enable` (lwis_cmd.c:157-199).  An already
enabled client returns 0 before touching any state; an already powered
device only bumps the refcount; the INT_MAX refcount is rejected; otherwise
the device is powered up. -/
def cmd_device_enable (st : LifecycleState) (o : PowerOracle) :
    Int × LifecycleState :=
  if st.client_is_enabled then
    (0, st)
  else if 0 < st.dev_enabled ∧ st.dev_enabled < INT_MAX then
    (0, { st with dev_enabled := st.dev_enabled + 1, client_is_enabled := true })
  else if st.dev_enabled = INT_MAX then
    (-EINVAL, st)
  else if o.power_up_ret < 0 then
    (o.power_up_ret, st)
  else
    (0, { st with dev_enabled := st.dev_enabled + 1, client_is_enabled := true,
                  is_suspended := false })

/-- Embedding of `cmd_device_disable` (lwis_cmd.c:201-259).  A client that is
not enabled returns 0 before any flush or state change; with other enabled
clients remaining only the refcount drops; disabling an already disabled
device is -EINVAL; otherwise the device is powered down. -/
def cmd_device_disable (st : LifecycleState) (o : PowerOracle) :
    Int × LifecycleState :=
  if ¬ st.client_is_enabled then
    (0, st)
  else if 1 < st.dev_enabled then
    (0, { st with dev_enabled := st.dev_enabled - 1, client_is_enabled := false })
  else if st.dev_enabled ≤ 0 then
    (-EINVAL, st)
  else if o.power_down_ret < 0 then
    (o.power_down_ret, st)
  else
    (0, { st with dev_enabled := st.dev_enabled - 1, client_is_enabled := false,
                  is_suspended := false })

/-- Embedding of `cmd_device_suspend` (lwis_cmd.c:355-414).  A missing
suspend sequence and a disabled client are rejected with -EINVAL before the
is_suspended short-circuit; an already suspended device returns 0 with no
state change. -/
def cmd_device_suspend (st : LifecycleState) (o : PowerOracle) :
    Int × LifecycleState :=
  if ¬ st.has_suspend_sequence then
    (-EINVAL, st)
  else if ¬ st.client_is_enabled then
    (-EINVAL, st)
  else if st.is_suspended then
    (0, st)
  else if o.suspend_seq_ret ≠ 0 then
    (o.suspend_seq_ret, st)
  else
    (0, { st with is_suspended := true })

/-- Embedding of `cmd_device_resume` (lwis_cmd.c:416-452).  A missing resume
sequence is rejected with -EINVAL; a device that is not suspended returns 0
with no state change. -/
def cmd_device_resume (st : LifecycleState) (o : PowerOracle) :
    Int × LifecycleState :=
  if ¬ st.has_resume_sequence then
    (-EINVAL, st)
  else if ¬ st.is_suspended then
    (0, st)
  else if o.resume_seq_ret ≠ 0 then
    (o.resume_seq_ret, st)
  else
    (0, { st with is_suspended := false })

/-! I2C bus-manager process queue (lwis_i2c_sched.c in unnamed/part_000 and
lwis_i2c_bus_manager.c in unnamed/part_002). -/

/-- Device types (enum lwis_device_types); only the I2C check matters to the
enqueue path. -/
inductive DeviceType
  | I2C
  | IOREG
  | TOP
  | SLC
  | DPM
  | TEST
  | SPI
  deriving Repr, DecidableEq

/-- struct lwis_i2c_process_queue: the FIFO of requesting-device references
(head first) and number_of_requests.  A reference is modelled by the
requesting client's identifier. -/
structure ProcessQueue where
  requests : List Nat
  number_of_requests : Nat
  deriving Repr, DecidableEq

/-- Embedding of `lwis_i2c_process_request_queue_enqueue_request`
(lwis_i2c_sched.c, unnamed/part_000:68-93): allocate a request node for the
requesting device and add it at the tail, unconditionally — the body
contains no membership test of any kind. -/
def lwis_i2c_process_request_queue_enqueue_request (q : ProcessQueue)
    (dev : Nat) : Int × ProcessQueue :=
  (0, { requests := q.requests ++ [dev],
        number_of_requests := q.number_of_requests + 1 })

/-- Embedding of `lwis_i2c_bus_manager_enqueue_transfer_request`
(lwis_i2c_bus_manager.c, unnamed/part_002:832-849): under the process-queue
spin lock, forward to the scheduler enqueue when the requesting device is an
I2C device; otherwise do nothing and return 0. -/
def lwis_i2c_bus_manager_enqueue_transfer_request (dev_type : DeviceType)
    (q : ProcessQueue) (dev : Nat) : Int × ProcessQueue :=
  if dev_type = .I2C then
    lwis_i2c_process_request_queue_enqueue_request q dev
  else
    (0, q)

/-! Theorems. -/

/-- Claim C1, as frozen, is false on the code: the signal path compares the
current status only against the NOT_SIGNALED sentinel, so signaling an
unsignaled fence with the sentinel value itself succeeds (ret = 4, the
write length) yet leaves the fence in a state a later signal can still
change: the second signal also succeeds and moves the status to 5, instead
of failing with the already-signaled -EINVAL. -/
theorem c1_counterexample :
    0 ≤ (lwis_fence_signal ⟨LWIS_FENCE_STATUS_NOT_SIGNALED, []⟩ 4
          LWIS_FENCE_STATUS_NOT_SIGNALED).ret ∧
    (lwis_fence_signal (lwis_fence_signal ⟨LWIS_FENCE_STATUS_NOT_SIGNALED, []⟩ 4
          LWIS_FENCE_STATUS_NOT_SIGNALED).fence 4 5).ret ≠ -EINVAL ∧
    (lwis_fence_signal (lwis_fence_signal ⟨LWIS_FENCE_STATUS_NOT_SIGNALED, []⟩ 4
          LWIS_FENCE_STATUS_NOT_SIGNALED).fence 4 5).fence.status = 5 := by
  decide

/-- Claim C1 (amended): a signal with a correctly sized write on an
unsignaled fence sets the status to the given value, and — provided that
value is not the NOT_SIGNALED sentinel itself — every later signal fails
with -EINVAL and leaves the fence unchanged; moreover any fence whose
status is not NOT_SIGNALED is never changed by a signal operation. -/
theorem c1_signal_once_amended (f : Fence) (v : Int)
    (hun : f.status = LWIS_FENCE_STATUS_NOT_SIGNALED)
    (hv : v ≠ LWIS_FENCE_STATUS_NOT_SIGNALED) :
    (lwis_fence_signal f sizeof_status v).ret = (sizeof_status : Int) ∧
    (lwis_fence_signal f sizeof_status v).fence.status = v ∧
    (∀ v2 : Int,
      lwis_fence_signal (lwis_fence_signal f sizeof_status v).fence sizeof_status v2 =
        { ret := -EINVAL, fence := (lwis_fence_signal f sizeof_status v).fence,
          read_user := true, woke_waiters := false, triggered := [] }) ∧
    (∀ g : Fence, g.status ≠ LWIS_FENCE_STATUS_NOT_SIGNALED → ∀ len : Nat, ∀ v2 : Int,
      (lwis_fence_signal g len v2).fence = g ∧
      (lwis_fence_signal g len v2).ret = -EINVAL) := by
  refine ⟨?_, ?_, ?_, ?_⟩
  · simp [lwis_fence_signal, hun]
  · simp [lwis_fence_signal, hun]
  · intro v2
    simp [lwis_fence_signal, hun, hv]
  · intro g hg len v2
    by_cases hl : len = sizeof_status
    · subst hl
      simp [lwis_fence_signal, hg]
    · simp [lwis_fence_signal, hl]

/-- Witness for c1_signal_once_amended at the unsignaled fence with one
pending bucket, signaled with status 0. -/
theorem c1_signal_once_amended_witness :
    (Fence.mk LWIS_FENCE_STATUS_NOT_SIGNALED [(2, [9])]).status =
        LWIS_FENCE_STATUS_NOT_SIGNALED ∧
    (0 : Int) ≠ LWIS_FENCE_STATUS_NOT_SIGNALED ∧
    ((lwis_fence_signal ⟨LWIS_FENCE_STATUS_NOT_SIGNALED, [(2, [9])]⟩ sizeof_status 0).ret =
        (sizeof_status : Int) ∧
      (lwis_fence_signal ⟨LWIS_FENCE_STATUS_NOT_SIGNALED, [(2, [9])]⟩ sizeof_status 0).fence.status = 0 ∧
      (∀ v2 : Int,
        lwis_fence_signal
            (lwis_fence_signal ⟨LWIS_FENCE_STATUS_NOT_SIGNALED, [(2, [9])]⟩ sizeof_status 0).fence
            sizeof_status v2 =
          { ret := -EINVAL,
            fence := (lwis_fence_signal ⟨LWIS_FENCE_STATUS_NOT_SIGNALED, [(2, [9])]⟩
                sizeof_status 0).fence,
            read_user := true, woke_waiters := false, triggered := [] }) ∧
      (∀ g : Fence, g.status ≠ LWIS_FENCE_STATUS_NOT_SIGNALED → ∀ len : Nat, ∀ v2 : Int,
        (lwis_fence_signal g len v2).fence = g ∧
        (lwis_fence_signal g len v2).ret = -EINVAL)) :=
  ⟨by decide, by decide,
    c1_signal_once_amended ⟨LWIS_FENCE_STATUS_NOT_SIGNALED, [(2, [9])]⟩ 0
      (by decide) (by decide)⟩

/-- Claim C3: the code contradicts its own header documentation
(lwis_fence.h, unnamed/part_000:200-208, which promises -EALREADY for a
fence already signaled OK so the caller turns the transaction into an
immediate one).  Evaluated at a fence signaled with status 0, the
implementation returns -EINVAL — the same value as the signaled-with-error
case — while the unsignaled case records the pending id and returns 0 and a
bad fd returns -EBADF as documented. -/
theorem c3_add_transaction_code_bug_eval :
    lwis_trigger_fence_add_transaction (some ⟨0, []⟩) 1 42 = (-EINVAL, some ⟨0, []⟩) ∧
    -EINVAL ≠ -EALREADY ∧
    lwis_trigger_fence_add_transaction (some ⟨LWIS_FENCE_STATUS_NOT_SIGNALED, []⟩) 1 42 =
      (0, some ⟨LWIS_FENCE_STATUS_NOT_SIGNALED, [(1, [42])]⟩) ∧
    lwis_trigger_fence_add_transaction none 1 42 = (-EBADF, none) := by
  decide

/-- Claim C8, as frozen, is false on the code: releasing a fence that is
still unsignaled logs the client-side bug but performs no signal and no
wake-up of waiters anywhere on the release path. -/
theorem c8_counterexample :
    (lwis_fence_release ⟨LWIS_FENCE_STATUS_NOT_SIGNALED, [(1, [5])]⟩).logged_unsignaled = true ∧
    (lwis_fence_release ⟨LWIS_FENCE_STATUS_NOT_SIGNALED, [(1, [5])]⟩).woke_waiters = false := by
  decide

/-- Claim C8 (amended): when the final reference to a still-unsignaled fence
is dropped, the release path logs the client-side bug and frees every
pending-transaction bucket before freeing the fence; it does not signal the
fence or wake its waiters. -/
theorem c8_release_amended (f : Fence)
    (h : f.status = LWIS_FENCE_STATUS_NOT_SIGNALED) :
    (lwis_fence_release f).logged_unsignaled = true ∧
    (lwis_fence_release f).woke_waiters = false ∧
    (lwis_fence_release f).freed_buckets = f.transaction_list ∧
    (lwis_fence_release f).fence_freed = true := by
  simp [lwis_fence_release, h]

/-- Witness for c8_release_amended at an unsignaled fence with two pending
transaction ids. -/
theorem c8_release_amended_witness :
    (Fence.mk LWIS_FENCE_STATUS_NOT_SIGNALED [(3, [1, 2])]).status =
        LWIS_FENCE_STATUS_NOT_SIGNALED ∧
    ((lwis_fence_release ⟨LWIS_FENCE_STATUS_NOT_SIGNALED, [(3, [1, 2])]⟩).logged_unsignaled = true ∧
      (lwis_fence_release ⟨LWIS_FENCE_STATUS_NOT_SIGNALED, [(3, [1, 2])]⟩).woke_waiters = false ∧
      (lwis_fence_release ⟨LWIS_FENCE_STATUS_NOT_SIGNALED, [(3, [1, 2])]⟩).freed_buckets =
        (Fence.mk LWIS_FENCE_STATUS_NOT_SIGNALED [(3, [1, 2])]).transaction_list ∧
      (lwis_fence_release ⟨LWIS_FENCE_STATUS_NOT_SIGNALED, [(3, [1, 2])]⟩).fence_freed = true) :=
  ⟨by decide, c8_release_amended ⟨LWIS_FENCE_STATUS_NOT_SIGNALED, [(3, [1, 2])]⟩ (by decide)⟩

/-- Claim C10: a write to a fence fd whose length differs from the 4-byte
status field fails with -EINVAL before copy_from_user reaches the user
buffer, leaving the status and the pending-transaction buckets untouched. -/
theorem c10_bad_length_rejected (f : Fence) (len : Nat) (v : Int)
    (h : len ≠ sizeof_status) :
    lwis_fence_signal f len v =
      { ret := -EINVAL, fence := f, read_user := false, woke_waiters := false,
        triggered := [] } := by
  simp [lwis_fence_signal, h]

/-- Witness for c10_bad_length_rejected at a 3-byte write. -/
theorem c10_bad_length_rejected_witness :
    (3 : Nat) ≠ sizeof_status ∧
    lwis_fence_signal ⟨LWIS_FENCE_STATUS_NOT_SIGNALED, [(7, [11])]⟩ 3 6 =
      { ret := -EINVAL, fence := ⟨LWIS_FENCE_STATUS_NOT_SIGNALED, [(7, [11])]⟩,
        read_user := false, woke_waiters := false, triggered := [] } :=
  ⟨by decide, c10_bad_length_rejected ⟨LWIS_FENCE_STATUS_NOT_SIGNALED, [(7, [11])]⟩ 3 6 (by decide)⟩

/-- Claim C2: under the AND operator a fired event makes the condition ready
only when the incremented signaled_count reaches num_nodes (and only when
some node matches the event), a fence firing with status 0 makes it ready
exactly when the count reaches num_nodes, a fence firing with non-zero
status makes it ready immediately regardless of the count, and — through the
spec-modelled lwis_transaction_fence_trigger — such a fence-error firing ends
in the transaction being cancelled, not queued for execution. -/
theorem c2_and_trigger_ready (t : Transaction)
    (hop : t.trigger_condition.operator_type = .AND) :
    (∀ eid ec : Int,
      (lwis_event_triggered_condition_ready t eid ec).1 = true →
        has_matching_event_node t.trigger_condition.trigger_nodes eid ec = true ∧
        t.signaled_count + 1 = t.trigger_condition.trigger_nodes.length) ∧
    (∀ s : Int, s ≠ 0 → (lwis_fence_triggered_condition_ready t s).1 = true) ∧
    ((lwis_fence_triggered_condition_ready t 0).1 = true ↔
      t.signaled_count + 1 = t.trigger_condition.trigger_nodes.length) ∧
    (∀ s : Int, s ≠ 0 →
      (lwis_transaction_fence_trigger t s).1 = FenceTriggerOutcome.cancelled) := by
  have hfence : ∀ s : Int, s ≠ 0 → (lwis_fence_triggered_condition_ready t s).1 = true := by
    intro s hs
    by_cases hc : t.signaled_count + 1 = t.trigger_condition.trigger_nodes.length
    · simp [lwis_fence_triggered_condition_ready, hop, hc]
    · simp [lwis_fence_triggered_condition_ready, hop, hc, hs]
  refine ⟨?_, hfence, ?_, ?_⟩
  · intro eid ec h
    by_cases hm : has_matching_event_node t.trigger_condition.trigger_nodes eid ec
    · refine ⟨hm, ?_⟩
      simp [lwis_event_triggered_condition_ready, hm, hop] at h
      exact h
    · simp [lwis_event_triggered_condition_ready, hm] at h
  · by_cases hc : t.signaled_count + 1 = t.trigger_condition.trigger_nodes.length
    · simp [lwis_fence_triggered_condition_ready, hop, hc]
    · simp [lwis_fence_triggered_condition_ready, hop, hc]
  · intro s hs
    have hr := hfence s hs
    simp [lwis_transaction_fence_trigger, hr, hs]

/-- Witness for c2_and_trigger_ready at an AND condition with two nodes and
one node already signaled: a fence firing with error status -5 is ready and
cancels the transaction, an event firing that matches the event node
reaches the full count. -/
theorem c2_and_trigger_ready_witness :
    (Transaction.mk ⟨.AND, [⟨.EVENT, 42, 3, 0⟩, ⟨.FENCE, 0, 0, 5⟩]⟩
        1).trigger_condition.operator_type = TriggerOp.AND ∧
    (-5 : Int) ≠ 0 ∧
    (lwis_fence_triggered_condition_ready
        (⟨⟨.AND, [⟨.EVENT, 42, 3, 0⟩, ⟨.FENCE, 0, 0, 5⟩]⟩, 1⟩ : Transaction) (-5)).1 = true ∧
    (lwis_transaction_fence_trigger
        (⟨⟨.AND, [⟨.EVENT, 42, 3, 0⟩, ⟨.FENCE, 0, 0, 5⟩]⟩, 1⟩ : Transaction) (-5)).1 =
      FenceTriggerOutcome.cancelled ∧
    ((lwis_event_triggered_condition_ready
        (⟨⟨.AND, [⟨.EVENT, 42, 3, 0⟩, ⟨.FENCE, 0, 0, 5⟩]⟩, 1⟩ : Transaction) 42 3).1 = true →
      has_matching_event_node [⟨.EVENT, 42, 3, 0⟩, ⟨.FENCE, 0, 0, 5⟩] 42 3 = true ∧
      1 + 1 = ([⟨.EVENT, 42, 3, 0⟩, ⟨.FENCE, 0, 0, 5⟩] : List TriggerNode).length) :=
  ⟨rfl, by decide,
    (c2_and_trigger_ready ⟨⟨.AND, [⟨.EVENT, 42, 3, 0⟩, ⟨.FENCE, 0, 0, 5⟩]⟩, 1⟩ rfl).2.1
      (-5) (by decide),
    (c2_and_trigger_ready ⟨⟨.AND, [⟨.EVENT, 42, 3, 0⟩, ⟨.FENCE, 0, 0, 5⟩]⟩, 1⟩ rfl).2.2.2
      (-5) (by decide),
    (c2_and_trigger_ready ⟨⟨.AND, [⟨.EVENT, 42, 3, 0⟩, ⟨.FENCE, 0, 0, 5⟩]⟩, 1⟩ rfl).1 42 3⟩

/-- Helper: with every entry of a list dispatching successfully, running an
extended list continues from the state the successful entries produced. -/
theorem run_entries_append_of_ok {σ : Type} (dev : DeviceOps σ) :
    ∀ (good : List IoEntry) (s s1 : σ), runs_ok dev s good = some s1 →
      ∀ l : List IoEntry, run_entries dev s (good ++ l) = run_entries dev s1 l := by
  intro good
  induction good with
  | nil =>
    intro s s1 h l
    simp [runs_ok] at h
    subst h
    simp
  | cons e tl ih =>
    intro s s1 h l
    cases hd : dispatch_entry dev s e with
    | error r => simp [runs_ok, hd] at h
    | ok s2 =>
      simp [runs_ok, hd] at h
      simp only [List.cons_append, run_entries, hd]
      exact ih s2 s1 h l

/-- Claim C4: the executor walks the entries in order; with every entry of
`good` succeeding and `bad` failing with error r, the run over
good ++ bad :: rest returns r, the device state keeps exactly the side
effects of the good prefix, and — whenever the device exposes the barrier
hook — the barrier is invoked with (read := false, write := true) before the
first entry and with (read := true, write := false) on the (error) exit; a
fully successful run returns 0 with the same barrier bracketing. -/
theorem c4_executor_stops_at_first_error {σ : Type} (dev : DeviceOps σ)
    (s s1 : σ) (good : List IoEntry) (bad : IoEntry) (rest : List IoEntry)
    (r : Int) (hgood : runs_ok dev s good = some s1)
    (hbad : dispatch_entry dev s1 bad = .error r) :
    lwis_ioctl_util_synchronous_process_io_entries dev s (good ++ bad :: rest) =
      (r, s1, if dev.has_barrier then [(false, true), (true, false)] else []) ∧
    lwis_ioctl_util_synchronous_process_io_entries dev s good =
      (0, s1, if dev.has_barrier then [(false, true), (true, false)] else []) := by
  have hrun := run_entries_append_of_ok dev good s s1 hgood
  constructor
  · unfold lwis_ioctl_util_synchronous_process_io_entries
    rw [hrun (bad :: rest)]
    simp [run_entries, hbad]
    by_cases hb : dev.has_barrier <;> simp [hb]
  · unfold lwis_ioctl_util_synchronous_process_io_entries
    have : run_entries dev s good = (0, s1) := by
      have h2 := hrun []
      simpa [run_entries] using h2
    rw [this]
    by_cases hb : dev.has_barrier <;> simp [hb]

/-- Witness for c4_executor_stops_at_first_error: a device over state Int
whose register capability adds the entry value and fails with -EFAULT on a
zero value; two good entries, then a failing READ, then an unreached WRITE. -/
theorem c4_executor_stops_at_first_error_witness :
    runs_ok
        (DeviceOps.mk (fun s e => if e.val = 0 then .error (-EFAULT) else .ok (s + e.val))
          (fun s _ => .ok s) (fun s _ => .ok s) true)
        (0 : Int) [⟨.WRITE, 0, 2⟩, ⟨.MODIFY, 1, 3⟩] = some 5 ∧
    dispatch_entry
        (DeviceOps.mk (fun s e => if e.val = 0 then .error (-EFAULT) else .ok (s + e.val))
          (fun s _ => .ok s) (fun s _ => .ok s) true)
        (5 : Int) ⟨.READ, 2, 0⟩ = .error (-EFAULT) ∧
    lwis_ioctl_util_synchronous_process_io_entries
        (DeviceOps.mk (fun s e => if e.val = 0 then .error (-EFAULT) else .ok (s + e.val))
          (fun s _ => .ok s) (fun s _ => .ok s) true)
        (0 : Int) ([⟨.WRITE, 0, 2⟩, ⟨.MODIFY, 1, 3⟩] ++ ⟨.READ, 2, 0⟩ :: [⟨.WRITE, 9, 9⟩]) =
      (-EFAULT, 5, [(false, true), (true, false)]) :=
  ⟨rfl, rfl,
    (c4_executor_stops_at_first_error
        (DeviceOps.mk (fun s e => if e.val = 0 then .error (-EFAULT) else .ok (s + e.val))
          (fun s _ => .ok s) (fun s _ => .ok s) true)
        0 5 [⟨.WRITE, 0, 2⟩, ⟨.MODIFY, 1, 3⟩] ⟨.READ, 2, 0⟩ [⟨.WRITE, 9, 9⟩]
        (-EFAULT) rfl rfl).1⟩

/-- Claim C5: an event at the head of the error queue is delivered before
any normal-queue event (the normal queue is untouched); a front event whose
payload exceeds the user's buffer capacity is reported back with its
required size and -EAGAIN without being popped, and a retry with a large
enough buffer pops and delivers that same event. -/
theorem c5_dequeue_error_priority_and_retry
    (st1 : ClientQueues) (eE : EventInfo) (tlE : List EventInfo) (capA : Nat)
    (h1 : st1.error_queue = eE :: tlE) (hA : eE.payload_size ≤ capA)
    (st2 : ClientQueues) (e : EventInfo) (cap cap2 : Nat)
    (hfront : front_event st2 = some e) (hsmall : cap < e.payload_size)
    (hbig : e.payload_size ≤ cap2) :
    cmd_event_dequeue st1 capA =
      { ret_code := 0, delivered := some eE, reported_size := none,
        st := { error_queue := tlE, event_queue := st1.event_queue } } ∧
    cmd_event_dequeue st2 cap =
      { ret_code := -EAGAIN, delivered := none,
        reported_size := some e.payload_size, st := st2 } ∧
    cmd_event_dequeue st2 cap2 =
      { ret_code := 0, delivered := some e, reported_size := none,
        st := pop_front st2 } := by
  refine ⟨?_, ?_, ?_⟩
  · simp [cmd_event_dequeue, h1, handle_front, Nat.not_lt.mpr hA]
  · cases herr : st2.error_queue with
    | cons e0 tl =>
      have he : e0 = e := by
        simpa [front_event, herr] using hfront
      subst he
      simp [cmd_event_dequeue, herr, handle_front, hsmall]
    | nil =>
      cases hev : st2.event_queue with
      | nil => simp [front_event, herr, hev] at hfront
      | cons e0 tl =>
        have he : e0 = e := by
          simpa [front_event, herr, hev] using hfront
        subst he
        simp [cmd_event_dequeue, herr, hev, handle_front, hsmall]
  · cases herr : st2.error_queue with
    | cons e0 tl =>
      have he : e0 = e := by
        simpa [front_event, herr] using hfront
      subst he
      simp [cmd_event_dequeue, herr, handle_front, Nat.not_lt.mpr hbig, pop_front]
    | nil =>
      cases hev : st2.event_queue with
      | nil => simp [front_event, herr, hev] at hfront
      | cons e0 tl =>
        have he : e0 = e := by
          simpa [front_event, herr, hev] using hfront
        subst he
        simp [cmd_event_dequeue, herr, hev, handle_front, Nat.not_lt.mpr hbig, pop_front]

/-- Witness for c5_dequeue_error_priority_and_retry: an error event of
payload 16 ahead of a normal event, delivered at capacity 16; and a
normal-queue event of payload 1024 reported (not popped) at capacity 256,
then delivered at capacity 1024. -/
theorem c5_dequeue_error_priority_and_retry_witness :
    (ClientQueues.mk [⟨1, 1, 10, 16⟩] [⟨2, 1, 11, 8⟩]).error_queue =
      ⟨1, 1, 10, 16⟩ :: [] ∧
    (EventInfo.mk 1 1 10 16).payload_size ≤ 16 ∧
    front_event (ClientQueues.mk [] [⟨3, 2, 12, 1024⟩]) = some ⟨3, 2, 12, 1024⟩ ∧
    256 < (EventInfo.mk 3 2 12 1024).payload_size ∧
    (EventInfo.mk 3 2 12 1024).payload_size ≤ 1024 ∧
    (cmd_event_dequeue (ClientQueues.mk [⟨1, 1, 10, 16⟩] [⟨2, 1, 11, 8⟩]) 16 =
        { ret_code := 0, delivered := some ⟨1, 1, 10, 16⟩, reported_size := none,
          st := { error_queue := [],
                  event_queue := (ClientQueues.mk [⟨1, 1, 10, 16⟩] [⟨2, 1, 11, 8⟩]).event_queue } } ∧
      cmd_event_dequeue (ClientQueues.mk [] [⟨3, 2, 12, 1024⟩]) 256 =
        { ret_code := -EAGAIN, delivered := none,
          reported_size := some (EventInfo.mk 3 2 12 1024).payload_size,
          st := ClientQueues.mk [] [⟨3, 2, 12, 1024⟩] } ∧
      cmd_event_dequeue (ClientQueues.mk [] [⟨3, 2, 12, 1024⟩]) 1024 =
        { ret_code := 0, delivered := some ⟨3, 2, 12, 1024⟩, reported_size := none,
          st := pop_front (ClientQueues.mk [] [⟨3, 2, 12, 1024⟩]) }) :=
  ⟨rfl, by decide, rfl, by decide, by decide,
    c5_dequeue_error_priority_and_retry
      (ClientQueues.mk [⟨1, 1, 10, 16⟩] [⟨2, 1, 11, 8⟩]) ⟨1, 1, 10, 16⟩ [] 16 rfl (by decide)
      (ClientQueues.mk [] [⟨3, 2, 12, 1024⟩]) ⟨3, 2, 12, 1024⟩ 256 1024 rfl (by decide)
      (by decide)⟩

/-- Helper: over Nat, the truncated product divided back equals the factor
exactly when the product did not wrap the modulus. -/
theorem mul_mod_div_eq_iff (S num M : Nat) (hS : 0 < S) (hM : 0 < M) :
    ((S * num) % M) / S = num ↔ S * num < M := by
  constructor
  · intro h
    by_contra hge
    push_neg at hge
    have h1 : (S * num) % M / S * S ≤ (S * num) % M := Nat.div_mul_le_self _ _
    rw [h] at h1
    have h2 : (S * num) % M < M := Nat.mod_lt _ hM
    rw [Nat.mul_comm] at h1
    omega
  · intro h
    rw [Nat.mod_eq_of_lt h, Nat.mul_div_cancel_left num hS]

/-- Claim C6: both io-entry copy paths fail with -EOVERFLOW, with no
allocation performed, exactly when num * sizeof(struct lwis_io_entry)
overflows the size used for the allocation (a uint32_t in
copy_io_entries_from_cmd, a size_t in lwis_ioctl_util_construct_io_entry);
when the product fits, the guard passes and the allocation of the exact
product size is requested. -/
theorem c6_overflow_guard_exact (entry_sz num : Nat) (hS : 0 < entry_sz) :
    (copy_io_entries_from_cmd_guard entry_sz num =
        { ret := -EOVERFLOW, alloc_sizes := [] } ↔ 2 ^ 32 ≤ entry_sz * num) ∧
    (entry_sz * num < 2 ^ 32 →
      copy_io_entries_from_cmd_guard entry_sz num =
        { ret := 0, alloc_sizes := [entry_sz * num] }) ∧
    (lwis_ioctl_util_construct_io_entry_guard entry_sz num =
        { ret := -EOVERFLOW, alloc_sizes := [] } ↔ 2 ^ 64 ≤ entry_sz * num) ∧
    (entry_sz * num < 2 ^ 64 →
      lwis_ioctl_util_construct_io_entry_guard entry_sz num =
        { ret := 0, alloc_sizes := [entry_sz * num] }) := by
  have h32 := mul_mod_div_eq_iff entry_sz num (2 ^ 32) hS (by norm_num)
  have h64 := mul_mod_div_eq_iff entry_sz num (2 ^ 64) hS (by norm_num)
  norm_num at h32 h64
  refine ⟨?_, ?_, ?_, ?_⟩
  · by_cases hc : entry_sz * num % 4294967296 / entry_sz = num
    · have hlt := h32.mp hc
      simp [copy_io_entries_from_cmd_guard, hc, EOVERFLOW]
      omega
    · have hge : 4294967296 ≤ entry_sz * num := by
        by_contra hlt
        push_neg at hlt
        exact hc (h32.mpr hlt)
      simp [copy_io_entries_from_cmd_guard, hc]
      omega
  · intro hlt
    norm_num at hlt
    have hc := h32.mpr hlt
    simp [copy_io_entries_from_cmd_guard, hc, Nat.mod_eq_of_lt hlt]
    exact Nat.mul_div_cancel_left num hS
  · by_cases hc : entry_sz * num % 18446744073709551616 / entry_sz = num
    · have hlt := h64.mp hc
      simp [lwis_ioctl_util_construct_io_entry_guard, hc, EOVERFLOW]
      omega
    · have hge : 18446744073709551616 ≤ entry_sz * num := by
        by_contra hlt
        push_neg at hlt
        exact hc (h64.mpr hlt)
      simp [lwis_ioctl_util_construct_io_entry_guard, hc]
      omega
  · intro hlt
    norm_num at hlt
    have hc := h64.mpr hlt
    simp [lwis_ioctl_util_construct_io_entry_guard, hc, Nat.mod_eq_of_lt hlt]
    exact Nat.mul_div_cancel_left num hS

/-- Witness for c6_overflow_guard_exact at sizeof = 48. -/
theorem c6_overflow_guard_exact_witness :
    (0 : Nat) < 48 ∧
    ((copy_io_entries_from_cmd_guard 48 (2 ^ 28) =
        { ret := -EOVERFLOW, alloc_sizes := [] } ↔ 2 ^ 32 ≤ 48 * 2 ^ 28) ∧
      (48 * 2 ^ 28 < 2 ^ 32 →
        copy_io_entries_from_cmd_guard 48 (2 ^ 28) =
          { ret := 0, alloc_sizes := [48 * 2 ^ 28] }) ∧
      (lwis_ioctl_util_construct_io_entry_guard 48 (2 ^ 28) =
          { ret := -EOVERFLOW, alloc_sizes := [] } ↔ 2 ^ 64 ≤ 48 * 2 ^ 28) ∧
      (48 * 2 ^ 28 < 2 ^ 64 →
        lwis_ioctl_util_construct_io_entry_guard 48 (2 ^ 28) =
          { ret := 0, alloc_sizes := [48 * 2 ^ 28] })) :=
  ⟨by decide, c6_overflow_guard_exact 48 (2 ^ 28) (by decide)⟩

/-- Claim C7, as frozen, is false on the code: enqueueing the same client
reference twice yields two FIFO entries — the enqueue path has no
membership check, so a client does not appear at most once. -/
theorem c7_counterexample :
    (lwis_i2c_bus_manager_enqueue_transfer_request .I2C
        (lwis_i2c_bus_manager_enqueue_transfer_request .I2C ⟨[], 0⟩ 7).2 7).2.requests =
      [7, 7] ∧
    ¬((lwis_i2c_bus_manager_enqueue_transfer_request .I2C
        (lwis_i2c_bus_manager_enqueue_transfer_request .I2C ⟨[], 0⟩ 7).2 7).2.requests.count 7
      ≤ 1) := by
  decide

/-- Claim C7 (amended): enqueue on an I2C device unconditionally appends a
new request node at the FIFO tail and increments the request count; in
particular the number of occurrences of the enqueued client reference grows
by one on every call, so repeated enqueues produce repeated entries rather
than deduplicating. -/
theorem c7_enqueue_appends_amended (q : ProcessQueue) (d : Nat) :
    lwis_i2c_bus_manager_enqueue_transfer_request .I2C q d =
      (0, { requests := q.requests ++ [d],
            number_of_requests := q.number_of_requests + 1 }) ∧
    (lwis_i2c_bus_manager_enqueue_transfer_request .I2C q d).2.requests.count d =
      q.requests.count d + 1 := by
  constructor
  · simp [lwis_i2c_bus_manager_enqueue_transfer_request,
      lwis_i2c_process_request_queue_enqueue_request]
  · simp [lwis_i2c_bus_manager_enqueue_transfer_request,
      lwis_i2c_process_request_queue_enqueue_request, List.count_append]

/-- Claim C9, as frozen, is false on the code: DeviceSuspend on an already
suspended device whose calling client is not enabled returns -EINVAL, and
DeviceResume on a non-suspended device with no resume sequence defined
returns -EINVAL — neither is the claimed zero ret_code. -/
theorem c9_counterexample :
    (cmd_device_suspend ⟨1, true, false, true, true⟩ ⟨0, 0, 0, 0⟩).1 = -EINVAL ∧
    (cmd_device_suspend ⟨1, true, false, true, true⟩ ⟨0, 0, 0, 0⟩).1 ≠ 0 ∧
    (cmd_device_resume ⟨1, false, true, true, false⟩ ⟨0, 0, 0, 0⟩).1 = -EINVAL ∧
    (cmd_device_resume ⟨1, false, true, true, false⟩ ⟨0, 0, 0, 0⟩).1 ≠ 0 := by
  decide

/-- Claim C9 (amended): DeviceEnable on an already-enabled client and
DeviceDisable on a non-enabled client return 0 and change nothing,
unconditionally; DeviceSuspend on an already suspended device returns 0 and
changes nothing provided a suspend sequence is defined and the calling
client is enabled; DeviceResume on a non-suspended device returns 0 and
changes nothing provided a resume sequence is defined. -/
theorem c9_lifecycle_idempotent_amended (o : PowerOracle)
    (s1 s2 s3 s4 : LifecycleState)
    (h1 : s1.client_is_enabled = true)
    (h2 : s2.client_is_enabled = false)
    (h3a : s3.has_suspend_sequence = true) (h3b : s3.client_is_enabled = true)
    (h3c : s3.is_suspended = true)
    (h4a : s4.has_resume_sequence = true) (h4b : s4.is_suspended = false) :
    cmd_device_enable s1 o = (0, s1) ∧
    cmd_device_disable s2 o = (0, s2) ∧
    cmd_device_suspend s3 o = (0, s3) ∧
    cmd_device_resume s4 o = (0, s4) := by
  refine ⟨?_, ?_, ?_, ?_⟩
  · simp [cmd_device_enable, h1]
  · simp [cmd_device_disable, h2]
  · simp [cmd_device_suspend, h3a, h3b, h3c]
  · simp [cmd_device_resume, h4a, h4b]

/-- Witness for c9_lifecycle_idempotent_amended at concrete states. -/
theorem c9_lifecycle_idempotent_amended_witness :
    (LifecycleState.mk 2 false true true true).client_is_enabled = true ∧
    (LifecycleState.mk 0 false false true true).client_is_enabled = false ∧
    (LifecycleState.mk 1 true true true true).has_suspend_sequence = true ∧
    (LifecycleState.mk 1 true true true true).client_is_enabled = true ∧
    (LifecycleState.mk 1 true true true true).is_suspended = true ∧
    (LifecycleState.mk 1 false false true true).has_resume_sequence = true ∧
    (LifecycleState.mk 1 false false true true).is_suspended = false ∧
    (cmd_device_enable ⟨2, false, true, true, true⟩ ⟨0, 0, 0, 0⟩ =
        (0, ⟨2, false, true, true, true⟩) ∧
      cmd_device_disable ⟨0, false, false, true, true⟩ ⟨0, 0, 0, 0⟩ =
        (0, ⟨0, false, false, true, true⟩) ∧
      cmd_device_suspend ⟨1, true, true, true, true⟩ ⟨0, 0, 0, 0⟩ =
        (0, ⟨1, true, true, true, true⟩) ∧
      cmd_device_resume ⟨1, false, false, true, true⟩ ⟨0, 0, 0, 0⟩ =
        (0, ⟨1, false, false, true, true⟩)) :=
  ⟨rfl, rfl, rfl, rfl, rfl, rfl, rfl,
    c9_lifecycle_idempotent_amended ⟨0, 0, 0, 0⟩
      ⟨2, false, true, true, true⟩ ⟨0, false, false, true, true⟩
      ⟨1, true, true, true, true⟩ ⟨1, false, false, true, true⟩
      rfl rfl rfl rfl rfl rfl rfl⟩

end LWIS
